import Mathlib

/-!
Verification of the session-start orchestration of the drinknow app
(`src-tauri/src/session_window.rs`), as a shallow embedding.

The Tauri runtime, window system, license server, settings stores, tracking
backend and the updater/feedback/welcome collaborators are modelled as an
environment record `Env` fixing the outcome of each external call, and every
flow is a pure function from `Env` (plus its Rust arguments) to an `Effects`
record accumulating the externally observable actions the Rust code performs,
paired with the `Result` value the Rust function returns.  IO-level failures
of `emit` and of the alert surface itself are not modelled (they would abort
the Tauri runtime, not this logic).
-/

/-- Modelled from the spec: sip sizes stored in user settings
(`model::session::SipSize`, not part of the provided sources).  The spec names
the documented default, a large sip (`BigSip`); `SmallSip` stands for any
other variant. -/
inductive SipSize
  | BigSip
  | SmallSip
deriving DecidableEq, Repr

/-- Modelled from the spec: drink characters stored in user settings
(`model::session::DrinkCharacter`, not part of the provided sources).  The
spec names the documented default (`YoungWoman`); `OtherCharacter` stands for
any other variant. -/
inductive DrinkCharacter
  | YoungWoman
  | OtherCharacter
deriving DecidableEq, Repr

/-- `model::event::SessionStartEvent` as used by `session_window.rs`: the
payload handed to the session UI. -/
structure SessionStartEvent where
  sip_size : SipSize
  selected_drink_character : DrinkCharacter
  demo_mode : Bool
deriving DecidableEq, Repr

/-- The user-settings fields `show_session` reads
(`settings.user.sip_size`, `settings.user.character`). -/
structure UserSettings where
  sip_size : SipSize
  character : DrinkCharacter
deriving DecidableEq, Repr

/-- Modelled from the spec: the welcome-wizard mode passed to
`welcome_window::show`; `session_window.rs` uses `OnlyPayment`, `lib.rs` uses
the complete wizard. -/
inductive WelcomeWizardMode
  | OnlyPayment
  | Complete
deriving DecidableEq, Repr

/-- Modelled from the spec: `PauseOrigin`, the reason a countdown is frozen
(`countdown_timer` module, not part of the provided sources).  `PreventSleep`
carries its start timestamp. -/
inductive PauseOrigin
  | PreventSleep (since : Int)
  | User
  | Idle
deriving DecidableEq, Repr

/-- Modelled from the spec: `TimerStatus`, the countdown state broadcast by
the timer (`countdown_timer` module, not part of the provided sources).
Durations are seconds. -/
inductive TimerStatus
  | NotStarted (configured_duration : Nat)
  | Active (remaining : Nat)
  | Paused (origin : PauseOrigin) (remaining : Nat)
  | Finished
deriving DecidableEq, Repr

/-- `countdown_timer::CountdownEvent`: the payload the session listener
receives on every timer transition. -/
structure CountdownEvent where
  status : TimerStatus
deriving DecidableEq, Repr

/-- The distinct user-visible alerts raised by `session_window.rs`. -/
inductive AlertKind
  | licenseServer
  | sessionWindowMissing
  | cantStartSession
deriving DecidableEq, Repr

/-- Outcomes of every external collaborator call the flows make, fixed up
front: the license-status query (`Except` models its fallibility), the stored
user settings, whether the "session" webview window exists, whether the
`SettingsSystemState` mutex lock succeeds (it fails only when poisoned),
whether `welcome_window::show` succeeds, whether an update is available (in
which case `show_if_update_available` shows the updater and returns `true`),
whether `should_show_feedback` holds, and whether hiding the session window
succeeds. -/
structure Env where
  licenseResult : Except Unit Bool
  userSettings : Option UserSettings
  sessionWindowExists : Bool
  settingsLockOk : Bool
  welcomeOk : Bool
  updaterAvailable : Bool
  feedbackDue : Bool
  hideOk : Bool
deriving Repr

/-- The externally observable actions of one flow, in order of occurrence
within each list. -/
structure Effects where
  restartCalls : Nat
  licenseQueries : Nat
  counterIncrements : Nat
  trackingEvents : Nat
  welcomeShows : List WelcomeWizardMode
  alerts : List AlertKind
  emits : List SessionStartEvent
  updaterShows : Nat
  feedbackShows : Nat
  hides : Nat
deriving DecidableEq, Repr

/-- No observable action. -/
def Effects.empty : Effects :=
  { restartCalls := 0, licenseQueries := 0, counterIncrements := 0,
    trackingEvents := 0, welcomeShows := [], alerts := [], emits := [],
    updaterShows := 0, feedbackShows := 0, hides := 0 }

/-- Sequential composition of the actions of two flow fragments. -/
def Effects.append (a b : Effects) : Effects :=
  { restartCalls := a.restartCalls + b.restartCalls,
    licenseQueries := a.licenseQueries + b.licenseQueries,
    counterIncrements := a.counterIncrements + b.counterIncrements,
    trackingEvents := a.trackingEvents + b.trackingEvents,
    welcomeShows := a.welcomeShows ++ b.welcomeShows,
    alerts := a.alerts ++ b.alerts,
    emits := a.emits ++ b.emits,
    updaterShows := a.updaterShows + b.updaterShows,
    feedbackShows := a.feedbackShows + b.feedbackShows,
    hides := a.hides + b.hides }

/-- The parameter-resolution chain of `show_session` (lines 112-130): the
explicit `overwrite_settings` if present, else the stored user settings with
`demo_mode: false`, else the hard-coded default event. -/
def resolve_session_start (overwrite_settings : Option SessionStartEvent)
    (user_settings : Option UserSettings) : SessionStartEvent :=
  (overwrite_settings.orElse fun _ =>
      user_settings.map fun u =>
        { sip_size := u.sip_size,
          selected_drink_character := u.character,
          demo_mode := false }).getD
    { sip_size := SipSize.BigSip,
      selected_drink_character := DrinkCharacter.YoungWoman,
      demo_mode := false }

/-- The value `show_session` binds to `license_active` (lines 68-82): the
queried status when the query succeeds; a query failure is absorbed into
`false` (fail-closed). -/
def Env.license_active (env : Env) : Bool :=
  match env.licenseResult with
  | Except.ok b => b
  | Except.error _ => false

/-- The alert raised while resolving `license_active` (lines 74-82): the
"Unable to access license server" alert, exactly when the query failed. -/
def Env.license_alerts (env : Env) : List AlertKind :=
  match env.licenseResult with
  | Except.ok _ => []
  | Except.error _ => [AlertKind.licenseServer]

/-- `session_window::show_session` (lines 64-153).  The license status is
queried first; a query error raises the license alert and is absorbed into
`license_active = false`.  Then, unless `demo_mode` (taken from
`overwrite_settings`) or the license is active, the flow redirects to the
payment welcome wizard; otherwise, for non-demo starts, the settings-system
mutex is locked (a poisoned lock aborts with an error after the `?`), the
session counter is increased and a tracking event is sent; finally the
resolved `SessionStartEvent` is emitted if the "session" window exists, and
the window-missing alert is raised if not. -/
def show_session (env : Env) (overwrite_settings : Option SessionStartEvent) :
    Effects × Except Unit Unit :=
  let license_active : Bool := env.license_active
  let demo_mode : Bool :=
    (overwrite_settings.map fun s => s.demo_mode).getD false
  let base : Effects :=
    { Effects.empty with licenseQueries := 1, alerts := env.license_alerts }
  if demo_mode || license_active then
    if !demo_mode && !env.settingsLockOk then
      (base, Except.error ())
    else
      let book : Effects :=
        if demo_mode then base
        else { base with counterIncrements := 1, trackingEvents := 1 }
      let session_start : SessionStartEvent :=
        resolve_session_start overwrite_settings env.userSettings
      if env.sessionWindowExists then
        ({ book with emits := [session_start] }, Except.ok ())
      else
        ({ book with alerts := book.alerts ++ [AlertKind.sessionWindowMissing] },
          Except.ok ())
  else
    ({ base with welcomeShows := [WelcomeWizardMode.OnlyPayment] },
      if env.welcomeOk then Except.ok () else Except.error ())

/-- The `tauri::command` `session_window::start_session` (lines 41-62): for a
non-demo request the countdown timer is restarted first, then `show_session`
runs; a `show_session` error is absorbed into the cannot-start-session
alert, and the command always returns `Ok(())`. -/
def start_session (env : Env) (drink_settings : Option SessionStartEvent) :
    Effects × Except Unit Unit :=
  let demo_mode : Bool :=
    (drink_settings.map fun s => s.demo_mode).getD false
  let restarted : Effects :=
    if !demo_mode then { Effects.empty with restartCalls := 1 }
    else Effects.empty
  let stepped : Effects × Except Unit Unit := show_session env drink_settings
  let absorbed : Effects :=
    match stepped.2 with
    | Except.ok _ => stepped.1
    | Except.error _ =>
        { stepped.1 with alerts := stepped.1.alerts ++ [AlertKind.cantStartSession] }
  (Effects.append restarted absorbed, Except.ok ())

/-- The `CountdownEvent` listener installed by `session_window::init`
(lines 23-35): when the received status is `Finished`, a task restarts the
timer and runs `show_session` with no overwrite settings (its result is
unwrapped, so its effects up to an error still occur); for any other status
nothing happens. -/
def handle_countdown_event (env : Env) (ev : CountdownEvent) : Effects :=
  if ev.status = TimerStatus.Finished then
    let restarted : Effects := { Effects.empty with restartCalls := 1 }
    Effects.append restarted (show_session env none).1
  else
    Effects.empty

/-- `session_window::hide_window` (lines 214-221): hides the "session" window
when it exists; a hide failure becomes an error, a missing window is a
successful no-op. -/
def hide_window (env : Env) : Effects × Except Unit Unit :=
  if env.sessionWindowExists then
    if env.hideOk then
      ({ Effects.empty with hides := 1 }, Except.ok ())
    else
      (Effects.empty, Except.error ())
  else
    (Effects.empty, Except.ok ())

/-- The `tauri::command` `session_window::end_session` (lines 188-212): the
session window is hidden first (a failure aborts via `?`); then, only for
non-demo sessions, `should_show_feedback` is read, the updater window is
shown when an update is available, and the feedback window is shown exactly
when feedback is due and the updater window did not become visible. -/
def end_session (env : Env) (demo_mode : Bool) : Effects × Except Unit Unit :=
  match hide_window env with
  | (e, Except.error u) => (e, Except.error u)
  | (e, Except.ok _) =>
      if !demo_mode then
        let ask_for_feedback : Bool := env.feedbackDue
        let updater_visible : Bool := env.updaterAvailable
        let shown : Effects :=
          { e with updaterShows := if updater_visible then 1 else 0 }
        if ask_for_feedback && !updater_visible then
          ({ shown with feedbackShows := 1 }, Except.ok ())
        else
          (shown, Except.ok ())
      else
        (e, Except.ok ())

namespace Chrono

/-- `chrono::Duration::num_seconds` on a duration given in nanoseconds:
the whole-second count, truncated toward zero as in the Rust library. -/
def num_seconds (nanos : Int) : Int :=
  Int.tdiv nanos 1000000000

/-- `chrono::Duration::num_days` on a duration given in nanoseconds:
whole seconds divided by 86400, truncated toward zero as in Rust. -/
def num_days (nanos : Int) : Int :=
  Int.tdiv (num_seconds nanos) 86400

end Chrono

/-- `session_window::days_between` (lines 178-184): timestamps are UTC
instants at nanosecond precision, modelled as nanoseconds since an epoch; the
function returns the whole-day count of `end - start` plus one. -/
def days_between (start finish : Int) : Int :=
  let duration : Int := finish - start
  Chrono.num_days duration + 1

/-- A concrete healthy environment: active license, stored settings absent,
session window present, locks healthy, no update pending, feedback due. -/
def envA : Env :=
  { licenseResult := Except.ok true, userSettings := none,
    sessionWindowExists := true, settingsLockOk := true, welcomeOk := true,
    updaterAvailable := false, feedbackDue := true, hideOk := true }

/-- The environment `envA` with the session webview window absent. -/
def envNoWin : Env := { envA with sessionWindowExists := false }

/-- The environment `envA` with a failing license-status query. -/
def envErr : Env := { envA with licenseResult := Except.error () }

/-- The environment `envA` with an inactive license. -/
def envInactive : Env := { envA with licenseResult := Except.ok false }

/-- A concrete demo-mode start request. -/
def sDemo : SessionStartEvent :=
  { sip_size := SipSize.SmallSip,
    selected_drink_character := DrinkCharacter.OtherCharacter,
    demo_mode := true }

/-- Helper: `show_session` itself never restarts the countdown timer. -/
theorem show_session_restartCalls (env : Env) (ov : Option SessionStartEvent) :
    (show_session env ov).1.restartCalls = 0 := by
  simp only [show_session]
  split_ifs <;> rfl

/-- Helper: every `show_session` run queries the license status exactly once,
on every path. -/
theorem show_session_licenseQueries (env : Env) (ov : Option SessionStartEvent) :
    (show_session env ov).1.licenseQueries = 1 := by
  simp only [show_session]
  split_ifs <;> rfl

/-- Helper: the window-missing alert is never among the alerts produced while
resolving the license status. -/
theorem sessionWindowMissing_not_license_alert (env : Env) :
    AlertKind.sessionWindowMissing ∉ env.license_alerts := by
  unfold Env.license_alerts
  cases env.licenseResult <;> simp

/-- Claim C1: in every non-demo session-start flow — the countdown listener
reacting to a Finished event, or a direct `start_session` request whose
settings do not ask for demo mode — the timer restart is called exactly once,
whatever the entitlement query returns (success, failure, or inactive: `env`
is universally quantified, so `licenseResult` is arbitrary). -/
theorem restart_called_exactly_once_in_nondemo_flows :
    (∀ (env : Env) (ds : Option SessionStartEvent),
        ((ds.map fun s => s.demo_mode).getD false) = false →
        (start_session env ds).1.restartCalls = 1)
    ∧ ∀ (env : Env),
        (handle_countdown_event env { status := TimerStatus.Finished }).restartCalls
          = 1 := by
  constructor
  · intro env ds h
    simp only [start_session, h]
    cases hr : (show_session env ds).2 <;>
      simp [Effects.append, show_session_restartCalls]
  · intro env
    simp [handle_countdown_event, Effects.append, show_session_restartCalls]

/-- Witness for C1 at a concrete healthy environment and a parameterless
start request. -/
theorem restart_called_exactly_once_in_nondemo_flows_witness :
    ((none : Option SessionStartEvent).map fun s => s.demo_mode).getD false = false
    ∧ (start_session envA none).1.restartCalls = 1 :=
  ⟨rfl, restart_called_exactly_once_in_nondemo_flows.1 envA none rfl⟩

/-- Claim C2: when the license-status query fails, `show_session` behaves
exactly as it does when the query reports an inactive entitlement, except for
one additional license-server alert surfaced first; in particular the overall
result value is the same, so the query error is not propagated as a failure
of the flow. -/
theorem license_error_fails_closed (env : Env) (ov : Option SessionStartEvent)
    (h : env.licenseResult = Except.error ()) :
    (show_session env ov).1.alerts =
      AlertKind.licenseServer ::
        (show_session { env with licenseResult := Except.ok false } ov).1.alerts
    ∧ { (show_session env ov).1 with alerts := [] } =
        { (show_session { env with licenseResult := Except.ok false } ov).1 with
            alerts := [] }
    ∧ (show_session env ov).2 =
        (show_session { env with licenseResult := Except.ok false } ov).2 := by
  cases hdm : (ov.map fun s => s.demo_mode).getD false <;>
  cases hlock : env.settingsLockOk <;>
  cases hwin : env.sessionWindowExists <;>
  cases hwel : env.welcomeOk <;>
    simp [show_session, Env.license_active, Env.license_alerts, h, hdm, hlock,
      hwin, hwel, Effects.empty]

/-- Witness for C2 at a concrete environment whose license query fails. -/
theorem license_error_fails_closed_witness :
    envErr.licenseResult = Except.error ()
    ∧ (show_session envErr none).1.alerts =
        AlertKind.licenseServer ::
          (show_session { envErr with licenseResult := Except.ok false } none).1.alerts :=
  ⟨rfl, (license_error_fails_closed envErr none rfl).1⟩

/-- Counterexample to C3 as stated: a demo-mode start request does not skip
the entitlement query — `show_session` queries the license status before it
even reads `demo_mode`, so the demo start below performs one query, not
zero. -/
theorem demo_mode_still_queries_entitlement :
    sDemo.demo_mode = true
    ∧ ¬ (start_session envA (some sDemo)).1.licenseQueries = 0 := by
  decide

/-- Claim C3 as amended: a demo-mode start request skips the session-counter
increment, the tracking event and the timer restart, and emits the supplied
`SessionStartEvent` (when the session window exists) regardless of the
entitlement result; the entitlement query itself is still performed. -/
theorem demo_mode_skips_bookkeeping_but_not_query (env : Env)
    (s : SessionStartEvent) (h : s.demo_mode = true) :
    (start_session env (some s)).1.restartCalls = 0
    ∧ (start_session env (some s)).1.counterIncrements = 0
    ∧ (start_session env (some s)).1.trackingEvents = 0
    ∧ (start_session env (some s)).1.licenseQueries = 1
    ∧ (env.sessionWindowExists = true → (start_session env (some s)).1.emits = [s])
    ∧ (env.sessionWindowExists = false →
        (start_session env (some s)).1.emits = []) := by
  cases hw : env.sessionWindowExists <;>
    simp [start_session, show_session, resolve_session_start, h, hw,
      Effects.append, Effects.empty]

/-- Witness for the amended C3 at a concrete demo request. -/
theorem demo_mode_skips_bookkeeping_but_not_query_witness :
    sDemo.demo_mode = true
    ∧ (start_session envA (some sDemo)).1.restartCalls = 0 :=
  ⟨rfl, (demo_mode_skips_bookkeeping_but_not_query envA sDemo rfl).1⟩

/-- Claim C4: a non-demo `show_session` run whose entitlement resolves to
inactive shows the payment-only welcome wizard and emits no
`SessionStartEvent`. -/
theorem inactive_entitlement_redirects_to_payment (env : Env)
    (ov : Option SessionStartEvent)
    (hdm : (ov.map fun s => s.demo_mode).getD false = false)
    (hl : env.license_active = false) :
    (show_session env ov).1.welcomeShows = [WelcomeWizardMode.OnlyPayment]
    ∧ (show_session env ov).1.emits = [] := by
  simp [show_session, hdm, hl, Effects.empty]

/-- Witness for C4 at a concrete environment with an inactive license. -/
theorem inactive_entitlement_redirects_to_payment_witness :
    ((none : Option SessionStartEvent).map fun s => s.demo_mode).getD false = false
    ∧ envInactive.license_active = false
    ∧ (show_session envInactive none).1.emits = [] :=
  ⟨rfl, rfl, (inactive_entitlement_redirects_to_payment envInactive none rfl rfl).2⟩

/-- Counterexample to C5 as stated: with an active entitlement and no demo
mode, `show_session` still emits no `SessionStartEvent` when the session
webview window is absent (the window-missing alert is raised instead). -/
theorem active_entitlement_emit_needs_window :
    ((none : Option SessionStartEvent).map fun s => s.demo_mode).getD false = false
    ∧ envNoWin.license_active = true
    ∧ (show_session envNoWin none).1.emits = [] := by
  decide

/-- Claim C5 as amended: a non-demo `show_session` run with an active
entitlement and a healthy settings-system lock increments the session counter
once and emits one tracking event; it emits the resolved `SessionStartEvent`
when the session window exists, and raises the window-missing alert with no
emission when it does not. -/
theorem active_entitlement_bookkeeping (env : Env) (ov : Option SessionStartEvent)
    (hdm : (ov.map fun s => s.demo_mode).getD false = false)
    (hl : env.license_active = true)
    (hlock : env.settingsLockOk = true) :
    (show_session env ov).1.counterIncrements = 1
    ∧ (show_session env ov).1.trackingEvents = 1
    ∧ (env.sessionWindowExists = true →
        (show_session env ov).1.emits = [resolve_session_start ov env.userSettings])
    ∧ (env.sessionWindowExists = false →
        (show_session env ov).1.emits = []
        ∧ AlertKind.sessionWindowMissing ∈ (show_session env ov).1.alerts) := by
  cases hw : env.sessionWindowExists <;>
    simp [show_session, hdm, hl, hlock, hw, Effects.empty]

/-- Witness for the amended C5 at a concrete healthy environment. -/
theorem active_entitlement_bookkeeping_witness :
    envA.license_active = true
    ∧ (show_session envA none).1.counterIncrements = 1 :=
  ⟨rfl, (active_entitlement_bookkeeping envA none rfl rfl rfl).1⟩

/-- Claim C6: every `SessionStartEvent` that `show_session` emits is resolved
with the documented precedence — the explicitly supplied parameters when
present; otherwise the stored user settings (their sip size and character,
with `demo_mode` false); otherwise the defaults `BigSip` and `YoungWoman`
with `demo_mode` false. -/
theorem emitted_event_parameter_precedence (env : Env)
    (ov : Option SessionStartEvent) (e : SessionStartEvent)
    (he : e ∈ (show_session env ov).1.emits) :
    (∀ s, ov = some s → e = s)
    ∧ (ov = none → ∀ u, env.userSettings = some u →
        e = { sip_size := u.sip_size,
              selected_drink_character := u.character,
              demo_mode := false })
    ∧ (ov = none → env.userSettings = none →
        e = { sip_size := SipSize.BigSip,
              selected_drink_character := DrinkCharacter.YoungWoman,
              demo_mode := false }) := by
  have hres : e = resolve_session_start ov env.userSettings := by
    simp only [show_session] at he
    split_ifs at he <;> simp_all [Effects.empty]
  refine ⟨?_, ?_, ?_⟩
  · intro s hs
    subst hs
    simpa [resolve_session_start] using hres
  · intro hov u hu
    subst hov
    simpa [resolve_session_start, hu] using hres
  · intro hov hu
    subst hov
    simpa [resolve_session_start, hu] using hres

/-- Witness for C6: in an environment with no stored settings and no explicit
parameters, the emitted event is the documented default. -/
theorem emitted_event_parameter_precedence_witness :
    ({ sip_size := SipSize.BigSip,
       selected_drink_character := DrinkCharacter.YoungWoman,
       demo_mode := false } : SessionStartEvent)
        ∈ (show_session envA none).1.emits
    ∧ envA.userSettings = none
    ∧ ({ sip_size := SipSize.BigSip,
         selected_drink_character := DrinkCharacter.YoungWoman,
         demo_mode := false } : SessionStartEvent) =
        { sip_size := SipSize.BigSip,
          selected_drink_character := DrinkCharacter.YoungWoman,
          demo_mode := false } :=
  ⟨by decide, rfl,
    (emitted_event_parameter_precedence envA none _ (by decide)).2.2 rfl rfl⟩

/-- Claim C7: `end_session` hides the session surface (assuming the hide call
itself succeeds); the update and feedback prompts are mutually exclusive; for
non-demo sessions the feedback window is shown exactly when feedback is due
and no update prompt became visible; in demo mode neither prompt is shown. -/
theorem end_session_prompts (env : Env) (demo : Bool) (h : env.hideOk = true) :
    (env.sessionWindowExists = true → (end_session env demo).1.hides = 1)
    ∧ (end_session env demo).2 = Except.ok ()
    ∧ ¬((end_session env demo).1.updaterShows ≥ 1
        ∧ (end_session env demo).1.feedbackShows ≥ 1)
    ∧ (demo = false →
        ((end_session env demo).1.feedbackShows = 1 ↔
          env.feedbackDue = true ∧ env.updaterAvailable = false))
    ∧ (demo = true →
        (end_session env demo).1.feedbackShows = 0
        ∧ (end_session env demo).1.updaterShows = 0) := by
  cases demo <;>
  cases hw : env.sessionWindowExists <;>
  cases hf : env.feedbackDue <;>
  cases hu : env.updaterAvailable <;>
    simp [end_session, hide_window, h, hw, hf, hu, Effects.empty]

/-- Witness for C7 at a concrete environment with feedback due and no update
available. -/
theorem end_session_prompts_witness :
    envA.hideOk = true
    ∧ (end_session envA false).1.hides = 1
    ∧ ((end_session envA false).1.feedbackShows = 1 ↔
        envA.feedbackDue = true ∧ envA.updaterAvailable = false) :=
  ⟨rfl, (end_session_prompts envA false rfl).1 rfl,
    (end_session_prompts envA false rfl).2.2.2.1 rfl⟩

/-- Claim C8: the countdown listener triggers the restart-and-start-session
path exactly for a `Finished` status — one restart and one entitlement query
there — and performs no action for `NotStarted`, `Active` or `Paused`
statuses (and, conversely, for every non-`Finished` event). -/
theorem listener_triggers_only_on_finished (env : Env) :
    (∀ d, handle_countdown_event env { status := TimerStatus.NotStarted d }
        = Effects.empty)
    ∧ (∀ r, handle_countdown_event env { status := TimerStatus.Active r }
        = Effects.empty)
    ∧ (∀ o r, handle_countdown_event env { status := TimerStatus.Paused o r }
        = Effects.empty)
    ∧ (handle_countdown_event env { status := TimerStatus.Finished }).restartCalls
        = 1
    ∧ (handle_countdown_event env { status := TimerStatus.Finished }).licenseQueries
        = 1
    ∧ ∀ ev : CountdownEvent, ev.status ≠ TimerStatus.Finished →
        handle_countdown_event env ev = Effects.empty := by
  refine ⟨?_, ?_, ?_, ?_, ?_, ?_⟩
  · intro d; simp [handle_countdown_event]
  · intro r; simp [handle_countdown_event]
  · intro o r; simp [handle_countdown_event]
  · simp [handle_countdown_event, Effects.append, show_session_restartCalls]
  · simp [handle_countdown_event, Effects.append, show_session_licenseQueries,
      Effects.empty]
  · intro ev h; simp [handle_countdown_event, h]

/-- Witness for C8: a concrete non-finished event produces no action, and the
finished event produces exactly one restart. -/
theorem listener_triggers_only_on_finished_witness :
    handle_countdown_event envA { status := TimerStatus.Active 5 } = Effects.empty
    ∧ (handle_countdown_event envA { status := TimerStatus.Finished }).restartCalls
        = 1 :=
  ⟨(listener_triggers_only_on_finished envA).2.2.2.2.2
      { status := TimerStatus.Active 5 } (by decide),
    (listener_triggers_only_on_finished envA).2.2.2.1⟩

/-- Claim C9: whenever `show_session` reaches its emission point (demo mode,
or active entitlement with a healthy settings lock), the `SessionStartEvent`
is emitted exactly when the session webview window exists; when the window is
absent the window-missing alert is raised instead and nothing is emitted. -/
theorem emit_only_when_window_exists (env : Env) (ov : Option SessionStartEvent)
    (h : ((ov.map fun s => s.demo_mode).getD false
          || (env.license_active && env.settingsLockOk)) = true) :
    (env.sessionWindowExists = true →
      (show_session env ov).1.emits = [resolve_session_start ov env.userSettings]
      ∧ AlertKind.sessionWindowMissing ∉ (show_session env ov).1.alerts)
    ∧ (env.sessionWindowExists = false →
      (show_session env ov).1.emits = []
      ∧ AlertKind.sessionWindowMissing ∈ (show_session env ov).1.alerts) := by
  cases hdm : (ov.map fun s => s.demo_mode).getD false <;>
  cases hl : env.license_active <;>
  cases hlock : env.settingsLockOk <;>
  cases hw : env.sessionWindowExists <;>
    simp_all [show_session, Effects.empty,
      sessionWindowMissing_not_license_alert]

/-- Witness for C9 at a concrete healthy environment with the window
present. -/
theorem emit_only_when_window_exists_witness :
    (((none : Option SessionStartEvent).map fun s => s.demo_mode).getD false
        || (envA.license_active && envA.settingsLockOk)) = true
    ∧ (show_session envA none).1.emits =
        [resolve_session_start none envA.userSettings] :=
  ⟨by decide, ((emit_only_when_window_exists envA none (by decide)).1 rfl).1⟩

/-- Claim C10: for every pair of UTC timestamps (nanoseconds since an epoch),
`days_between` is the whole-day count of the difference plus one, and equal
timestamps give 1 — the count is inclusive of the start day. -/
theorem days_between_counts_inclusively :
    (∀ start finish : Int,
        days_between start finish = Chrono.num_days (finish - start) + 1)
    ∧ ∀ t : Int, days_between t t = 1 := by
  constructor
  · intro s f
    rfl
  · intro t
    simp [days_between, Chrono.num_days, Chrono.num_seconds, sub_self,
      Int.zero_tdiv]
